import Mathlib

/-!
# Verification of the CB2 room state engine

A shallow embedding of the CB2 server core (`src/server/state.py`, its message
types, and the python client mirror `src/py_client/cb2_client.py`) together
with proofs about it.

Conventions of the embedding:
* Python floats are modelled as rationals; the float comparison
  `math.sqrt(x*x + y*y) > 1.001` in `State.valid_action` is stated on squares
  (sqrt is monotone on nonnegative reals, so the two are equivalent).
* Python dicts keyed by actor id are association lists `List (Int × α)`.
* Wall-clock time (`datetime.now()`) is an integer parameter threaded into
  the functions that read it; one tick-loop iteration observes one instant.
* Operations that can raise `KeyError` in python return `Option State`.
* Modules of this repository that are referenced by `state.py` but whose
  sources are not available (`hex.py`, `messages/rooms.py`,
  `messages/turn_state.py`, `map_provider.py`, `card.py`, `util.py`,
  `messages/message_from_server.py`, `messages/state_sync.py`) are modelled
  from the specification; their doc comments say so explicitly.
-/

namespace CB2

/-- From src/server/messages/action.py: the action type enum. -/
inductive ActionType
  | INIT
  | INSTANT
  | ROTATE
  | TRANSLATE
  | OUTLINE
  | DEATH
deriving DecidableEq, Repr

/-- From src/server/messages/action.py: the animation type enum. -/
inductive AnimationType
  | NONE
  | IDLE
  | WALKING
  | INSTANT
  | TRANSLATE
  | ACCEL_DECEL
  | SKIPPING
  | ROTATE
deriving DecidableEq, Repr

/-- From src/server/messages/action.py: an RGBA color with float channels. -/
structure Color where
  r : ℚ
  g : ℚ
  b : ℚ
  a : ℚ
deriving DecidableEq, Repr

/-- Modelled from the spec: `messages/rooms.py` is not under src/. Roles are
LEADER and FOLLOWER plus a sentinel NONE. -/
inductive Role
  | NONE
  | LEADER
  | FOLLOWER
deriving DecidableEq, Repr

/-- Modelled from the spec: `hex.py` is not under src/. A HECS coordinate is a
triple `(a, r, c)` with the invariant `a ∈ {0,1}`. -/
structure HecsCoord where
  a : ℤ
  r : ℤ
  c : ℤ
deriving DecidableEq, Repr

/-- Modelled from the spec: HECS addition is componentwise with a carry rule
preserving `a ∈ {0,1}`: the `a` bits are xored and their conjunction is
carried into the row and column sums. -/
def HecsCoord.add (x y : HecsCoord) : HecsCoord :=
  ⟨(x.a + y.a) % 2, x.r + y.r + x.a * y.a, x.c + y.c + x.a * y.a⟩

/-- Modelled from the spec: the Cartesian projection of a HECS coordinate has
`x = c + a/2` and `y = (2r + a)·(√3/2)` (unit distance between adjacent hex
centers).  We work with the squared norm, which is rational:
`x² + y² = (c + a/2)² + (3/4)·(2r + a)²`. -/
def HecsCoord.cartesian_norm_sq (h : HecsCoord) : ℚ :=
  ((h.c : ℚ) + (h.a : ℚ) / 2) ^ 2 + 3 / 4 * (2 * (h.r : ℚ) + (h.a : ℚ)) ^ 2

/-- From src/server/messages/action.py: the Action record. -/
structure Action where
  id : ℤ
  action_type : ActionType
  animation_type : AnimationType
  displacement : HecsCoord
  rotation : ℚ
  border_radius : ℚ
  border_color : Color
  duration_s : ℚ
  expiration : ℤ
deriving DecidableEq, Repr

/-- Modelled from the spec: `card.py` is not under src/.  `CardSelectAction`
builds the OUTLINE action that `state.py` emits when a card's selection bit
changes, carrying the card id and a border color. -/
def CardSelectAction (card_id : ℤ) (selected : Bool) (color : Color) : Action :=
  { id := card_id
    action_type := ActionType.OUTLINE
    animation_type := AnimationType.NONE
    displacement := ⟨0, 0, 0⟩
    rotation := 0
    border_radius := if selected then 1 else 0
    border_color := color
    duration_s := 0
    expiration := 0 }

/-- The squared translation tolerance: `1.001²` from `State.valid_action`. -/
def sq_norm_limit : ℚ := (1001 / 1000) ^ 2

/-- The rotation tolerance `60.01` from `State.valid_action`. -/
def rot_limit : ℚ := 6001 / 100

/-- From `State.valid_action` (src/server/state.py lines 496-505): a TRANSLATE
whose Cartesian displacement norm exceeds 1.001 is invalid, a ROTATE whose
(signed) rotation exceeds 60.01 is invalid, and every other action is valid.
The source compares `sqrt(x² + y²) > 1.001`; this is stated on squares. -/
def valid_action (_actor_id : ℤ) (action : Action) : Bool :=
  if action.action_type = ActionType.TRANSLATE ∧
      action.displacement.cartesian_norm_sq > sq_norm_limit then
    false
  else if action.action_type = ActionType.ROTATE ∧ action.rotation > rot_limit then
    false
  else
    true

/-! ## Association lists

Python dicts keyed by actor id are modelled as association lists.  `alist_set`
overwrites the binding in place when the key is present (as a dict assignment
does) and appends it otherwise; `alist_modify` mutates an existing binding and
is a no-op when the key is absent. -/

/-- Dict lookup: the value bound to `k`, if any. -/
def alist_get {α : Type} : List (ℤ × α) → ℤ → Option α
  | [], _ => none
  | (k', v) :: rest, k => if k' = k then some v else alist_get rest k

/-- Dict assignment `m[k] = v`. -/
def alist_set {α : Type} : List (ℤ × α) → ℤ → α → List (ℤ × α)
  | [], k, v => [(k, v)]
  | (k', v') :: rest, k, v =>
      if k' = k then (k, v) :: rest else (k', v') :: alist_set rest k v

/-- In-place mutation of the value bound to `k` (no-op when absent). -/
def alist_modify {α : Type} : List (ℤ × α) → ℤ → (α → α) → List (ℤ × α)
  | [], _, _ => []
  | (k', v) :: rest, k, f =>
      if k' = k then (k, f v) :: rest else (k', v) :: alist_modify rest k f

/-- Dict deletion `del m[k]`. -/
def alist_remove {α : Type} : List (ℤ × α) → ℤ → List (ℤ × α)
  | [], _ => []
  | (k', v) :: rest, k =>
      if k' = k then alist_remove rest k else (k', v) :: alist_remove rest k

/-! ## The data model of the room state engine -/

/-- Modelled from the spec: `card.py` is not under src/.  A card has an id, a
location, the three set attributes (color, shape, count) and a selection
bit. -/
structure Card where
  id : ℤ
  location : HecsCoord
  color : ℤ
  shape : ℤ
  count : ℤ
  selected : Bool
deriving DecidableEq, Repr

/-- Modelled from the spec: `map_update.py`'s MapUpdate carries the tiles and
the props (cards) of the map. -/
structure MapUpdate where
  tiles : List ℤ
  cards : List Card
deriving DecidableEq, Repr

/-- Modelled from the spec: `map_provider.py` is not under src/.  The provider
owns the tile grid, the card set, and the spawn points of a room. -/
structure MapProvider where
  tiles : List ℤ
  cards : List Card
  spawns : List HecsCoord
deriving DecidableEq, Repr

/-- Modelled from the spec: the provider's current map snapshot. -/
def MapProvider.map (p : MapProvider) : MapUpdate := ⟨p.tiles, p.cards⟩

/-- Modelled from the spec: the currently selected cards. -/
def MapProvider.selected_cards (p : MapProvider) : List Card :=
  p.cards.filter (fun c => c.selected)

/-- Modelled from the spec: the card occupying a cell, if any. -/
def MapProvider.card_by_location (p : MapProvider) (loc : HecsCoord) : Option Card :=
  p.cards.find? (fun c => c.location == loc)

/-- Modelled from the spec: sets or clears the selection bit of card `cid`. -/
def MapProvider.set_selected (p : MapProvider) (cid : ℤ) (b : Bool) : MapProvider :=
  { p with cards := p.cards.map (fun c => if c.id = cid then { c with selected := b } else c) }

/-- Modelled from the spec: removes the card with id `cid`. -/
def MapProvider.remove_card (p : MapProvider) (cid : ℤ) : MapProvider :=
  { p with cards := p.cards.filter (fun c => ¬ c.id = cid) }

/-- Modelled from the spec: spawns fresh random cards; the randomness is an
input, so the fresh cards themselves are the argument. -/
def MapProvider.add_random_cards (p : MapProvider) (fresh : List Card) : MapProvider :=
  { p with cards := p.cards ++ fresh }

/-- Modelled from the spec: two cards share an attribute when their colors,
shapes, or counts coincide. -/
def cards_share_attribute (c d : Card) : Bool :=
  c.color == d.color || c.shape == d.shape || c.count == d.count

/-- Some pair among the listed cards shares an attribute. -/
def any_pair_shares : List Card → Bool
  | [] => false
  | c :: rest => rest.any (cards_share_attribute c) || any_pair_shares rest

/-- Modelled from the spec: ≥ 2 selected cards share an attribute, or more
than 3 cards are selected. -/
def MapProvider.selected_cards_collide (p : MapProvider) : Bool :=
  p.selected_cards.length > 3 || any_pair_shares p.selected_cards

/-- Modelled from the spec: exactly 3 selected cards, pairwise distinct on
every attribute. -/
def MapProvider.selected_valid_set (p : MapProvider) : Bool :=
  p.selected_cards.length == 3 && !(any_pair_shares p.selected_cards)

/-- Modelled from the spec: `messages/turn_state.py` is not under src/.  The
turn state record; `TurnUpdate` and `GameOverMessage` below build its two
variants. -/
structure TurnState where
  turn : Role
  moves_remaining : ℤ
  turns_left : ℤ
  turn_end : ℤ
  game_start : ℤ
  sets_collected : ℤ
  score : ℤ
  game_over : Bool
deriving DecidableEq, Repr

/-- Modelled from the spec: an ordinary turn state update. -/
def TurnUpdate (turn : Role) (moves_remaining turns_left turn_end game_start
    sets_collected score : ℤ) : TurnState :=
  ⟨turn, moves_remaining, turns_left, turn_end, game_start, sets_collected, score, false⟩

/-- Modelled from the spec: the terminal game-over turn state recorded when
`turns_left` reaches −1. -/
def GameOverMessage (game_start sets_collected score : ℤ) : TurnState :=
  ⟨Role.NONE, 0, -1, 0, game_start, sets_collected, score, true⟩

/-- From src/server/messages/objective.py: an objective message. -/
structure Objective where
  sender : Role
  text : String
  uuid : String
  completed : Bool
  cancelled : Bool
deriving DecidableEq, Repr

/-- Modelled from the spec: `assets.py` is not under src/; only the two avatar
assets are relevant. -/
inductive AssetId
  | PLAYER
  | FOLLOWER_BOT
deriving DecidableEq, Repr

/-- From src/server/state.py (class Actor): a player's avatar with its FIFO
queue of pending proposed actions (head of the list = front of the queue). -/
structure Actor where
  actor_id : ℤ
  asset_id : AssetId
  role : Role
  location : HecsCoord
  heading_degrees : ℚ
  actions : List Action
deriving DecidableEq, Repr

/-- From `Actor.add_action`: enqueue a proposed action. -/
def Actor.add_action (a : Actor) (act : Action) : Actor :=
  { a with actions := a.actions ++ [act] }

/-- From `Actor.has_actions`. -/
def Actor.has_actions (a : Actor) : Bool := !a.actions.isEmpty

/-- From `Actor.peek`: the head of the queue without consuming it. -/
def Actor.peek (a : Actor) : Option Action := a.actions.head?

/-- From `Actor.step`: dequeue the head action and apply its displacement and
rotation. -/
def Actor.step (a : Actor) : Actor :=
  match a.actions with
  | [] => a
  | act :: rest =>
      { a with actions := rest
               location := a.location.add act.displacement
               heading_degrees := a.heading_degrees + act.rotation }

/-- From `Actor.drop`: dequeue the head action without acting on it. -/
def Actor.drop (a : Actor) : Actor :=
  match a.actions with
  | [] => a
  | _ :: rest => { a with actions := rest }

/-- Modelled from the spec: `messages/state_sync.py` is not under src/; one
actor's entry in a StateSync snapshot. -/
structure ActorState where
  actor_id : ℤ
  asset_id : AssetId
  location : HecsCoord
  rotation_degrees : ℚ
deriving DecidableEq, Repr

/-- From `Actor.state`. -/
def Actor.state (a : Actor) : ActorState :=
  ⟨a.actor_id, a.asset_id, a.location, a.heading_degrees⟩

/-- Modelled from the spec: a full StateSync snapshot enumerating all actors'
positions and headings. -/
structure StateSync where
  population : ℕ
  actors : List ActorState
  player_id : ℤ
deriving DecidableEq, Repr

/-- Modelled from the spec: the MessageFromServer kinds the engine's drain can
emit. -/
inductive MessageFromServer
  | MapUpdateFromServer (m : MapUpdate)
  | StateSyncFromServer (s : StateSync)
  | ActionsFromServer (actions : List Action)
  | ObjectivesFromServer (objectives : List Objective)
  | GameStateFromServer (t : TurnState)
deriving DecidableEq, Repr

/-- Modelled from the spec: `util.py`'s IdAssigner allocates and recycles
small integer IDs. -/
structure IdAssigner where
  next_id : ℤ
  freed : List ℤ
deriving DecidableEq, Repr

/-- Allocate an id: reuse a freed one if available, else the next counter. -/
def IdAssigner.alloc : IdAssigner → ℤ × IdAssigner
  | ⟨n, []⟩ => (n, ⟨n + 1, []⟩)
  | ⟨n, k :: rest⟩ => (k, ⟨n, rest⟩)

/-- Return an id to the assigner. -/
def IdAssigner.free (a : IdAssigner) (k : ℤ) : IdAssigner :=
  ⟨a.next_id, a.freed ++ [k]⟩

/-- From src/server/state.py (class State): the room state.  Python dicts are
association lists; the dict `_actors` maps actor ids to actors. -/
structure State where
  actors : List (ℤ × Actor)
  map_provider : MapProvider
  objectives : List Objective
  objectives_stale : List (ℤ × Bool)
  map_update : MapUpdate
  map_stale : List (ℤ × Bool)
  synced : List (ℤ × Bool)
  action_history : List (ℤ × List Action)
  turn_state : TurnState
  turn_history : List (ℤ × List TurnState)
  spawn_points : List HecsCoord
  id_assigner : IdAssigner
  done : Bool
deriving DecidableEq, Repr

/-- The ids under which the actors are stored, read off the actor objects
exactly as the python loops `for id in self._actors` paired with
`actor.actor_id()` do. -/
def State.actor_ids (s : State) : List ℤ :=
  s.actors.map (fun e => e.2.actor_id)

/-- Sets `m[k] = v` for every `k` in `ids`. -/
def set_all (m : List (ℤ × Bool)) (ids : List ℤ) (v : Bool) : List (ℤ × Bool) :=
  ids.foldl (fun m k => alist_set m k v) m

/-- Appends `x` to the list bound to every `k` in `ids` (binding `[x]` when
the key is absent, as the source's get-or-create does). -/
def append_all {α : Type} (m : List (ℤ × List α)) (ids : List ℤ) (x : α) :
    List (ℤ × List α) :=
  ids.foldl (fun m k => alist_set m k ((alist_get m k).getD [] ++ [x])) m

/-! ## State operations (src/server/state.py) -/

/-- The keys of the `_actors` dict, exactly the python loops
`for actor_id in self._actors`. -/
def State.actor_keys (s : State) : List ℤ :=
  s.actors.map Prod.fst

/-- From `State.record_turn_state`: overwrite the current turn state and push
a copy onto every actor's turn queue (creating the queue when absent). -/
def State.record_turn_state (s : State) (t : TurnState) : State :=
  { s with turn_state := t
           turn_history := append_all s.turn_history s.actor_keys t }

/-- From `State.drain_turn_state`: pop one queued turn state for the player
(creating an empty queue when the player has none). -/
def State.drain_turn_state (s : State) (actor_id : ℤ) : Option TurnState × State :=
  match alist_get s.turn_history actor_id with
  | none => (none, { s with turn_history := alist_set s.turn_history actor_id [] })
  | some [] => (none, s)
  | some (t :: rest) =>
      (some t, { s with turn_history := alist_set s.turn_history actor_id rest })

/-- From `State.end_game`: set the room's done flag. -/
def State.end_game (s : State) : State :=
  { s with done := true }

/-- From `State.record_action`: append the validated action to every actor's
outbox. -/
def State.record_action (s : State) (a : Action) : State :=
  { s with action_history := append_all s.action_history s.actor_ids a }

/-- From `State.desync`: clear one actor's synced bit. -/
def State.desync (s : State) (actor_id : ℤ) : State :=
  { s with synced := alist_set s.synced actor_id false }

/-- From `State.desync_all`: clear every actor's synced bit. -/
def State.desync_all (s : State) : State :=
  { s with synced := set_all s.synced s.actor_ids false }

/-- From `State.is_synced`: dict lookup of the synced bit (`KeyError`, i.e.
`none`, when the player has no entry). -/
def State.is_synced (s : State) (actor_id : ℤ) : Option Bool :=
  alist_get s.synced actor_id

/-- From `State.drain_actions`: return and clear the player's outbox (empty,
with no state change, when the player has no outbox). -/
def State.drain_actions (s : State) (actor_id : ℤ) : List Action × State :=
  match alist_get s.action_history actor_id with
  | none => ([], s)
  | some hist =>
      (hist, { s with action_history := alist_set s.action_history actor_id [] })

/-- From `State.drain_objectives`: a player missing from the staleness dict is
first marked stale; a stale player receives the full objectives list and is
marked fresh. -/
def State.drain_objectives (s : State) (actor_id : ℤ) : List Objective × State :=
  let stale0 := match alist_get s.objectives_stale actor_id with
    | none => alist_set s.objectives_stale actor_id true
    | some _ => s.objectives_stale
  if (alist_get stale0 actor_id).getD true = false then
    ([], { s with objectives_stale := stale0 })
  else
    (s.objectives, { s with objectives_stale := alist_set stale0 actor_id false })

/-- From `State.drain_map_update`: a player missing from the staleness dict is
first marked stale; a stale player receives the latest map and is marked
fresh. -/
def State.drain_map_update (s : State) (actor_id : ℤ) : Option MapUpdate × State :=
  let stale0 := match alist_get s.map_stale actor_id with
    | none => alist_set s.map_stale actor_id true
    | some _ => s.map_stale
  if (alist_get stale0 actor_id).getD true = false then
    (none, { s with map_stale := stale0 })
  else
    (some s.map_update, { s with map_stale := alist_set stale0 actor_id false })

/-- From `State.state`: the full snapshot of all actors. -/
def State.state (s : State) (actor_id : ℤ) : StateSync :=
  ⟨s.actors.length, s.actors.map (fun e => e.2.state), actor_id⟩

/-- From `State.sync_message_for_transmission`: compose the snapshot and mark
the player synced. -/
def State.sync_message_for_transmission (s : State) (actor_id : ℤ) :
    StateSync × State :=
  (s.state actor_id, { s with synced := alist_set s.synced actor_id true })

/-- From `State.drain_message`: at most one message per call, in the fixed
priority map → state sync → actions → objectives → turn state.  The outer
`Option` is the `KeyError` raised by `is_synced` for an unknown player. -/
def State.drain_message (s : State) (player_id : ℤ) :
    Option (Option MessageFromServer × State) :=
  match s.drain_map_update player_id with
  | (some m, s1) => some (some (MessageFromServer.MapUpdateFromServer m), s1)
  | (none, s1) =>
    match s1.is_synced player_id with
    | none => none
    | some sy =>
      if sy = false then
        match s1.sync_message_for_transmission player_id with
        | (ss, s2) => some (some (MessageFromServer.StateSyncFromServer ss), s2)
      else
        match s1.drain_actions player_id with
        | (acts, s2) =>
          if 0 < acts.length then
            some (some (MessageFromServer.ActionsFromServer acts), s2)
          else
            match s2.drain_objectives player_id with
            | (objs, s3) =>
              if 0 < objs.length then
                some (some (MessageFromServer.ObjectivesFromServer objs), s3)
              else
                match s3.drain_turn_state player_id with
                | (some t, s4) => some (some (MessageFromServer.GameStateFromServer t), s4)
                | (none, s4) => some (none, s4)

/-- From src/server/state.py line 25. -/
def LEADER_MOVES_PER_TURN : ℤ := 5

/-- From src/server/state.py line 26. -/
def FOLLOWER_MOVES_PER_TURN : ℤ := 10

/-- From `State.turn_duration`: 60 s for the Leader, 45 s for the Follower. -/
def turn_duration (role : Role) : ℤ :=
  if role = Role.LEADER then 60 else 45

/-- From `State.moves_per_turn`. -/
def moves_per_turn (role : Role) : ℤ :=
  if role = Role.LEADER then LEADER_MOVES_PER_TURN else FOLLOWER_MOVES_PER_TURN

/-- From `State.end_turn_if_over`: flip the turn when time expired or forced;
otherwise decrement the move budget (clamped at 0). -/
def State.end_turn_if_over (s : State) (now : ℤ) (force_turn_end : Bool) : State :=
  let opposite_role := if s.turn_state.turn = Role.FOLLOWER then Role.LEADER else Role.FOLLOWER
  let end_of_turn := decide (now ≥ s.turn_state.turn_end) || force_turn_end
  let next_role := if end_of_turn then opposite_role else s.turn_state.turn
  let moves_remaining := if end_of_turn then moves_per_turn next_role
                         else max (s.turn_state.moves_remaining - 1) 0
  let turns_left := if end_of_turn then s.turn_state.turns_left - 1
                    else s.turn_state.turns_left
  let turn_end := if end_of_turn then now + turn_duration next_role
                  else s.turn_state.turn_end
  s.record_turn_state (TurnUpdate next_role moves_remaining turns_left turn_end
    s.turn_state.game_start s.turn_state.sets_collected s.turn_state.score)

/-- Mutate the actor stored under `k` in the `_actors` dict. -/
def State.update_actor (s : State) (k : ℤ) (f : Actor → Actor) : State :=
  { s with actors := alist_modify s.actors k f }

/-- The blue border color `Color(0, 0, 1, 1)` used for valid selections. -/
def blue : Color := ⟨0, 0, 1, 1⟩

/-- The red border color `Color(1, 0, 0, 1)` used for invalid selections. -/
def red : Color := ⟨1, 0, 0, 1⟩

/-- From `State.check_for_stepped_on_cards`: when a TRANSLATE lands the actor
on a card, toggle the card's selection and record an outline action.  (The
source would raise for an unknown actor; that path is unreachable from the
tick loop, which looked the actor up already, and is modelled as a no-op.) -/
def State.check_for_stepped_on_cards (s : State) (actor_id : ℤ) (act : Action)
    (color : Color) : State :=
  match alist_get s.actors actor_id with
  | none => s
  | some actor =>
    match s.map_provider.card_by_location actor.location with
    | none => s
    | some card =>
      if act.action_type = ActionType.TRANSLATE then
        let sel := !card.selected
        let s1 := { s with map_provider := s.map_provider.set_selected card.id sel }
        s1.record_action (CardSelectAction card.id sel color)
      else s

/-- From `State.update`, lines 149-177: the body of the actor loop for one
actor.  An out-of-turn, out-of-moves, or invalid head action is dropped and
the actor desynced; a valid one is stepped, broadcast, checked for card
step-on, and charged via `end_turn_if_over`. -/
def State.process_actor_action (s : State) (now : ℤ) (current_set_invalid : Bool)
    (actor_id : ℤ) : State :=
  match alist_get s.actors actor_id with
  | none => s
  | some actor =>
    match actor.actions with
    | [] => s
    | proposed :: _ =>
      if ¬ s.turn_state.turn = actor.role then
        (s.update_actor actor_id Actor.drop).desync actor_id
      else if s.turn_state.moves_remaining = 0 then
        (s.update_actor actor_id Actor.drop).desync actor_id
      else if valid_action actor_id proposed then
        let s1 := s.update_actor actor_id Actor.step
        let s2 := s1.record_action proposed
        let color := if !current_set_invalid then blue else red
        let s3 := s2.check_for_stepped_on_cards actor_id proposed color
        s3.end_turn_if_over now false
      else
        (s.update_actor actor_id Actor.drop).desync actor_id

/-- Modelled from the spec: the default border color of a de-select
`CardSelectAction(card.id, False)` (card.py is not under src/). -/
def default_border_color : Color := ⟨0, 0, 0, 0⟩

/-- From `State.update`, lines 222-226 (the loop body of the valid-set
branch): de-select one winning card, record the de-select action, and remove
the card. -/
def State.collect_card (st : State) (card : Card) : State :=
  let sta := { st with map_provider := st.map_provider.set_selected card.id false }
  let stb := sta.record_action (CardSelectAction card.id false default_border_color)
  { stb with map_provider := stb.map_provider.remove_card card.id }

/-- From `State.update`, lines 200-233: the valid-set branch.  Awards the turn
bonus from the prior `sets_collected`, bumps `sets_collected` and `score`,
de-selects and removes the three cards, spawns the given fresh cards, and
(via `cards_changed`) refreshes the map snapshot and marks every actor's map
stale. -/
def State.score_valid_set (s : State) (fresh : List Card) : State :=
  let selected := s.map_provider.selected_cards
  let added_turns : ℤ :=
    if s.turn_state.sets_collected = 0 then 5
    else if s.turn_state.sets_collected = 1 ∨ s.turn_state.sets_collected = 2 then 4
    else if s.turn_state.sets_collected = 3 ∨ s.turn_state.sets_collected = 4 then 3
    else 0
  let s1 := s.record_turn_state (TurnUpdate s.turn_state.turn
      s.turn_state.moves_remaining (s.turn_state.turns_left + added_turns)
      s.turn_state.turn_end s.turn_state.game_start
      (s.turn_state.sets_collected + 1) (s.turn_state.score + 1))
  let s2 := selected.foldl State.collect_card s1
  let s3 := { s2 with map_provider := s2.map_provider.add_random_cards fresh }
  { s3 with map_update := s3.map_provider.map
            map_stale := set_all s3.map_stale s3.actor_keys true }

/-- From `State.update`, lines 179-198: outline every selected card in the
given color (red when an invalid set is detected, blue when it clears). -/
def State.mark_cards (s : State) (color : Color) : State :=
  s.map_provider.selected_cards.foldl
    (fun st card => st.record_action (CardSelectAction card.id true color)) s

/-- From `State.update`, lines 125-131: out of turns — record a game-over
turn state and end the game. -/
def State.game_over_step (s : State) : State :=
  (s.record_turn_state (GameOverMessage s.turn_state.game_start
    s.turn_state.sets_collected s.turn_state.score)).end_game

/-- From `State.update`, lines 135-144: the 1 s heartbeat re-records the
current turn state unchanged. -/
def State.heartbeat (s : State) : State :=
  s.record_turn_state (TurnUpdate s.turn_state.turn s.turn_state.moves_remaining
    s.turn_state.turns_left s.turn_state.turn_end s.turn_state.game_start
    s.turn_state.sets_collected s.turn_state.score)

/-- From `State.handle_action`: an action whose embedded id differs from the
submitting actor desyncs the submitter and is discarded; otherwise it is
enqueued on the submitter (`KeyError`, i.e. `none`, for an unknown actor). -/
def State.handle_action (s : State) (actor_id : ℤ) (action : Action) : Option State :=
  if ¬ action.id = actor_id then some (s.desync actor_id)
  else
    match alist_get s.actors actor_id with
    | none => none
    | some _ => some (s.update_actor actor_id (fun a => a.add_action action))

/-- From `State.handle_objective`: only a LEADER may submit; the engine stamps
the fresh uuid (randomness is an input), appends, and marks everyone's
objectives stale. -/
def State.handle_objective (s : State) (id : ℤ) (o : Objective)
    (fresh_uuid : String) : Option State :=
  match alist_get s.actors id with
  | none => none
  | some actor =>
    if ¬ actor.role = Role.LEADER then some s
    else some { s with
      objectives := s.objectives ++ [{ o with uuid := fresh_uuid }]
      objectives_stale := set_all s.objectives_stale s.actor_keys true }

/-- Marks the first objective carrying the uuid completed (the source's
for-loop with `break`). -/
def mark_first_complete : List Objective → String → List Objective
  | [], _ => []
  | o :: rest, u =>
      if o.uuid = u then { o with completed := true } :: rest
      else o :: mark_first_complete rest u

/-- From `State.handle_objective_complete`: only a FOLLOWER may submit; the
first matching objective is marked completed and everyone's objectives are
marked stale. -/
def State.handle_objective_complete (s : State) (id : ℤ) (u : String) :
    Option State :=
  match alist_get s.actors id with
  | none => none
  | some actor =>
    if ¬ actor.role = Role.FOLLOWER then some s
    else some { s with
      objectives := mark_first_complete s.objectives u
      objectives_stale := set_all s.objectives_stale s.actor_keys true }

/-- From `State.handle_turn_complete`: a player may force the end of the turn
only when it is their turn. -/
def State.handle_turn_complete (s : State) (now : ℤ) (id : ℤ) : Option State :=
  match alist_get s.actors id with
  | none => none
  | some actor =>
    if ¬ actor.role = s.turn_state.turn then some s
    else some (s.end_turn_if_over now true)

/-- From `State.create_actor`: pop a spawn point (python `list.pop` takes the
last element), allocate an id, insert the actor with empty outbox and cleared
synced bit, and desync everyone. -/
def State.create_actor (s : State) (role : Role) : ℤ × State :=
  let spawn := if s.spawn_points.isEmpty then (⟨0, 0, 0⟩ : HecsCoord)
               else (s.spawn_points.getLast?).getD ⟨0, 0, 0⟩
  let asset := if role = Role.LEADER then AssetId.PLAYER else AssetId.FOLLOWER_BOT
  let alloc := s.id_assigner.alloc
  let actor : Actor := ⟨alloc.1, asset, role, spawn, 0, []⟩
  let s1 := { s with
    actors := alist_set s.actors alloc.1 actor
    action_history := alist_set s.action_history alloc.1 []
    synced := alist_set s.synced alloc.1 false
    id_assigner := alloc.2
    spawn_points := s.spawn_points.dropLast }
  (alloc.1, s1.desync_all)

/-- From `State.free_actor`: drop the actor from every per-actor table,
return its id, and desync the survivors. -/
def State.free_actor (s : State) (actor_id : ℤ) : State :=
  let s1 := { s with
    actors := alist_remove s.actors actor_id
    action_history := alist_remove s.action_history actor_id
    objectives_stale := alist_remove s.objectives_stale actor_id
    turn_history := alist_remove s.turn_history actor_id
    id_assigner := s.id_assigner.free actor_id }
  s1.desync_all

/-- From `State.__init__`: the fresh room.  The shuffled spawn points are an
input (the source shuffles the provider's spawn points); the initial turn is
`TurnUpdate(LEADER, 5, 6, now + 60 s, now, 0, 0)`, recorded while the actor
table is still empty. -/
def init_state (mp : MapProvider) (shuffled_spawns : List HecsCoord) (now : ℤ) :
    State :=
  { actors := []
    map_provider := mp
    objectives := []
    objectives_stale := []
    map_update := mp.map
    map_stale := []
    synced := []
    action_history := []
    turn_state := TurnUpdate Role.LEADER LEADER_MOVES_PER_TURN 6
      (now + turn_duration Role.LEADER) now 0 0
    turn_history := []
    spawn_points := shuffled_spawns
    id_assigner := ⟨0, []⟩
    done := false }

/-- The states reachable from a fresh room through the tick loop's branches
and the engine's entry points, with wall-clock instants and randomness as
free parameters. -/
inductive Reachable : State → Prop
  | init (mp : MapProvider) (spawns : List HecsCoord) (now : ℤ) :
      Reachable (init_state mp spawns now)
  | game_over {s} : Reachable s → s.turn_state.turns_left = -1 →
      Reachable s.game_over_step
  | heartbeat {s} : Reachable s → Reachable s.heartbeat
  | turn_expiry {s} (now : ℤ) : Reachable s → now ≥ s.turn_state.turn_end →
      Reachable (s.end_turn_if_over now false)
  | process {s} (now : ℤ) (csi : Bool) (aid : ℤ) : Reachable s →
      Reachable (s.process_actor_action now csi aid)
  | mark {s} (color : Color) : Reachable s → Reachable (s.mark_cards color)
  | collect {s} (fresh : List Card) : Reachable s →
      s.map_provider.selected_valid_set = true → Reachable (s.score_valid_set fresh)
  | act {s s'} (aid : ℤ) (a : Action) : Reachable s →
      s.handle_action aid a = some s' → Reachable s'
  | objective {s s'} (id : ℤ) (o : Objective) (u : String) : Reachable s →
      s.handle_objective id o u = some s' → Reachable s'
  | objective_complete {s s'} (id : ℤ) (u : String) : Reachable s →
      s.handle_objective_complete id u = some s' → Reachable s'
  | turn_complete {s s'} (now id : ℤ) : Reachable s →
      s.handle_turn_complete now id = some s' → Reachable s'
  | create {s} (role : Role) : Reachable s → Reachable (s.create_actor role).2
  | free {s} (aid : ℤ) : Reachable s → Reachable (s.free_actor aid)
  | sync_req {s} (aid : ℤ) : Reachable s → Reachable (s.desync aid)
  | drain {s s' m} (pid : ℤ) : Reachable s →
      s.drain_message pid = some (m, s') → Reachable s'

/-! ## The client mirror (src/py_client/cb2_client.py) -/

/-- Modelled from the spec: the MessageFromServer discriminants the client
mirror dispatches on (`messages/message_from_server.py` is not under src/). -/
inductive ServerMessageType
  | ACTIONS
  | STATE_SYNC
  | GAME_STATE
  | MAP_UPDATE
  | OBJECTIVE
  | PING
  | LIVE_FEEDBACK
  | STATE_MACHINE_TICK
  | ROOM_MANAGEMENT
  | PROP_UPDATE
deriving DecidableEq, Repr

/-- Modelled from the spec: the client's outgoing maintenance messages
(`py_client/client_messages.py` is not under src/); only the Pong reply
matters here, other kinds are collapsed into a tagged constructor. -/
inductive ClientMessage
  | Pong
  | Other (tag : ℤ)
deriving DecidableEq, Repr

/-- The queue-relevant slice of the client `Game` mirror: its
`queued_messages` list. -/
structure ClientGame where
  queued_messages : List ClientMessage
deriving DecidableEq, Repr

/-- From `Game._handle_message`, lines 298-299: a PING appends a Pong to
`queued_messages`; no other message kind touches the queue. -/
def ClientGame.handle_message_queue_effect (g : ClientGame)
    (ty : ServerMessageType) : ClientGame :=
  if ty = ServerMessageType.PING then
    { g with queued_messages := g.queued_messages ++ [ClientMessage.Pong] }
  else g

/-- From `Game.step`, lines 213-217: the send phase transmits the action
message (when any) followed by every message in `queued_messages`.  The
source never clears `queued_messages`, so the returned game still holds
them.  The first component is the list of messages transmitted. -/
def ClientGame.step_send_phase (g : ClientGame)
    (action_message : Option ClientMessage) : List ClientMessage × ClientGame :=
  (action_message.toList ++ g.queued_messages, g)

/-! ## The event-origin enum (src/server/schemas/event.py) -/

/-- From src/server/schemas/event.py lines 12-17: the enumerators of
`EventOrigin` as they are declared in the source.  (In python's `IntEnum`
the duplicated value even makes `FOLLOWER` an alias of `LEADER`.) -/
inductive EventOrigin
  | NONE
  | LEADER
  | FOLLOWER
  | SERVER
deriving DecidableEq, Repr

/-- The integer value assigned to each `EventOrigin` enumerator in the
source: `NONE = 0, LEADER = 1, FOLLOWER = 1, SERVER = 2`. -/
def EventOrigin.val : EventOrigin → ℤ
  | .NONE => 0
  | .LEADER => 1
  | .FOLLOWER => 1
  | .SERVER => 2

/-! ## Concrete fixtures used by counterexamples and witnesses -/

/-- The message component of a successful drain, for stating results. -/
def drained_message (s : State) (pid : ℤ) : Option (Option MessageFromServer) :=
  (s.drain_message pid).map Prod.fst

/-- An empty map provider. -/
def mp0 : MapProvider := ⟨[], [], []⟩

/-- A turn state fixture: the initial `TurnUpdate(LEADER, 5, 6, 60, 0, 0, 0)`. -/
def ts0 : TurnState := TurnUpdate Role.LEADER 5 6 60 0 0 0

/-- A unit TRANSLATE action submitted by actor 0. -/
def walk_act : Action :=
  ⟨0, ActionType.TRANSLATE, AnimationType.WALKING, ⟨0, 0, 1⟩, 0, 0, ⟨0, 0, 0, 0⟩, 0, 0⟩

/-- A TRANSLATE by the non-unit displacement `⟨0, 1, 1⟩` (squared Cartesian
norm 4), submitted by actor 5. -/
def big_translate : Action :=
  ⟨5, ActionType.TRANSLATE, AnimationType.WALKING, ⟨0, 1, 1⟩, 0, 0, ⟨0, 0, 0, 0⟩, 0, 0⟩

/-- A follower avatar with the oversized TRANSLATE pending. -/
def c2_actor : Actor :=
  ⟨5, AssetId.FOLLOWER_BOT, Role.FOLLOWER, ⟨0, 0, 0⟩, 0, [big_translate]⟩

/-- A room whose follower (id 5) has the oversized TRANSLATE pending on its
own turn with moves available. -/
def c2_state : State :=
  { actors := [(5, c2_actor)]
    map_provider := mp0
    objectives := []
    objectives_stale := [(5, false)]
    map_update := ⟨[], []⟩
    map_stale := [(5, false)]
    synced := [(5, true)]
    action_history := [(5, [])]
    turn_state := TurnUpdate Role.FOLLOWER 10 5 60 0 0 0
    turn_history := [(5, [])]
    spawn_points := []
    id_assigner := ⟨6, []⟩
    done := false }

/-- The room of the C5 witness: a fresh room, a created leader, one pending
unit TRANSLATE. -/
def c5_s1 : State := ((init_state mp0 [] 0).create_actor Role.LEADER).2

/-- The C5 witness room with the walk enqueued on actor 0. -/
def c5_s2 : State := c5_s1.update_actor 0 (fun a => a.add_action walk_act)

/-- The leader avatar of the C5 witness after enqueueing. -/
def c5_actor : Actor := ⟨0, AssetId.PLAYER, Role.LEADER, ⟨0, 0, 0⟩, 0, [walk_act]⟩

/-- A room for the C3 counterexample: player 1 is synced and fresh except
that its objectives are stale while the objectives list is empty, and one
turn state is queued. -/
def c3_cx_state : State :=
  { actors := [(1, ⟨1, AssetId.PLAYER, Role.LEADER, ⟨0, 0, 0⟩, 0, []⟩)]
    map_provider := mp0
    objectives := []
    objectives_stale := [(1, true)]
    map_update := ⟨[], []⟩
    map_stale := [(1, false)]
    synced := [(1, true)]
    action_history := [(1, [])]
    turn_state := ts0
    turn_history := [(1, [ts0])]
    spawn_points := []
    id_assigner := ⟨2, []⟩
    done := false }

/-- A room for the C3 witness: player 1 has a stale map. -/
def c3_w_state : State :=
  { c3_cx_state with map_stale := [(1, true)] }

/-- A room for the C6 counterexample: the game has just ended (`done` set by
`end_game`), and the game-over turn state is still queued for player 1. -/
def c6_cx_state : State :=
  ({ c3_cx_state with
      objectives_stale := [(1, false)]
      turn_history := [(1, [GameOverMessage 0 2 2])] }).end_game

/-- A room for the C6 witness: done, with nothing pending for player 1. -/
def c6_w_state : State :=
  ({ c3_cx_state with
      objectives_stale := [(1, false)]
      turn_history := [(1, [])] }).end_game

/-- Three selected cards that are pairwise distinct on color, shape and
count, plus one unselected bystander card. -/
def c4_cards : List Card :=
  [⟨10, ⟨0, 0, 0⟩, 1, 1, 1, true⟩,
   ⟨11, ⟨0, 0, 1⟩, 2, 2, 2, true⟩,
   ⟨12, ⟨0, 1, 0⟩, 3, 3, 3, true⟩,
   ⟨13, ⟨0, 1, 1⟩, 1, 2, 3, false⟩]

/-- Three fresh replacement cards with fresh ids. -/
def c4_fresh : List Card :=
  [⟨20, ⟨1, 0, 0⟩, 1, 2, 2, false⟩,
   ⟨21, ⟨1, 0, 1⟩, 2, 3, 1, false⟩,
   ⟨22, ⟨1, 1, 0⟩, 3, 1, 2, false⟩]

/-- A room holding a selected valid set, for the C4 witness. -/
def c4_state : State :=
  { c3_cx_state with map_provider := ⟨[], c4_cards, []⟩ }

/-- A two-player room (leader 1, follower 2) with one objective, for the C7
and C10 witnesses. -/
def c7_state : State :=
  { actors := [(1, ⟨1, AssetId.PLAYER, Role.LEADER, ⟨0, 0, 0⟩, 0, []⟩),
               (2, ⟨2, AssetId.FOLLOWER_BOT, Role.FOLLOWER, ⟨0, 0, 1⟩, 0, []⟩)]
    map_provider := mp0
    objectives := [⟨Role.LEADER, "walk ahead", "u0", false, false⟩]
    objectives_stale := [(1, false), (2, false)]
    map_update := ⟨[], []⟩
    map_stale := [(1, false), (2, false)]
    synced := [(1, true), (2, true)]
    action_history := [(1, []), (2, [])]
    turn_state := ts0
    turn_history := [(1, []), (2, [])]
    spawn_points := []
    id_assigner := ⟨3, []⟩
    done := false }

/-- An objective text as submitted (uuid still empty). -/
def c7_objective : Objective := ⟨Role.LEADER, "pick up the card", "", false, false⟩

/-- The room after the leader's objective is handled. -/
def c7_s1 : State :=
  { c7_state with
      objectives := c7_state.objectives ++ [{ c7_objective with uuid := "u1" }]
      objectives_stale := set_all c7_state.objectives_stale c7_state.actor_keys true }

/-- The room after the follower completes objective "u0". -/
def c7_s2 : State :=
  { c7_state with
      objectives := mark_first_complete c7_state.objectives "u0"
      objectives_stale := set_all c7_state.objectives_stale c7_state.actor_keys true }

/-- An action submitted by actor 1 but carrying the foreign id 2. -/
def c10_act : Action :=
  ⟨2, ActionType.TRANSLATE, AnimationType.WALKING, ⟨0, 0, 1⟩, 0, 0, ⟨0, 0, 0, 0⟩, 0, 0⟩

/-- A probe action of type OUTLINE: `valid_action` accepts it. -/
def outline_probe : Action :=
  { id := 7
    action_type := ActionType.OUTLINE
    animation_type := AnimationType.NONE
    displacement := ⟨0, 0, 0⟩
    rotation := 0
    border_radius := 0
    border_color := ⟨0, 0, 1, 1⟩
    duration_s := 0
    expiration := 0 }

/-- A probe ROTATE by −100 degrees: `valid_action` accepts it because the
source compares the signed rotation, not its absolute value. -/
def neg_rotate_probe : Action :=
  { id := 7
    action_type := ActionType.ROTATE
    animation_type := AnimationType.ROTATE
    displacement := ⟨0, 0, 0⟩
    rotation := -100
    border_radius := 0
    border_color := ⟨0, 0, 0, 0⟩
    duration_s := 0
    expiration := 0 }

/-- C1 counterexample: the claim states `valid_action` returns true iff the
action is a TRANSLATE of norm ≤ 1.001 or a ROTATE with |rotation| ≤ 60.01,
every other action type being rejected.  The code accepts an OUTLINE action
and also accepts a ROTATE by −100 degrees, refuting both directions of the
claimed equivalence at concrete inputs. -/
theorem C1_counterexample :
    (valid_action 7 outline_probe = true ∧
      ¬ ((outline_probe.action_type = ActionType.TRANSLATE ∧
            outline_probe.displacement.cartesian_norm_sq ≤ sq_norm_limit) ∨
         (outline_probe.action_type = ActionType.ROTATE ∧
            |outline_probe.rotation| ≤ rot_limit))) ∧
    (valid_action 7 neg_rotate_probe = true ∧
      ¬ ((neg_rotate_probe.action_type = ActionType.TRANSLATE ∧
            neg_rotate_probe.displacement.cartesian_norm_sq ≤ sq_norm_limit) ∨
         (neg_rotate_probe.action_type = ActionType.ROTATE ∧
            |neg_rotate_probe.rotation| ≤ rot_limit))) := by
  constructor
  · refine ⟨by simp [valid_action, outline_probe], ?_⟩
    simp [outline_probe]
  · constructor
    · norm_num [valid_action, neg_rotate_probe, rot_limit]
      exact Or.inl (by simp)
    · simp only [neg_rotate_probe]
      rintro (⟨h, -⟩ | ⟨-, h⟩)
      · exact absurd h (by simp)
      · rw [abs_of_nonpos (by norm_num)] at h
        rw [rot_limit] at h
        norm_num at h

/-- C1 (amended): `valid_action` returns true iff the action, when a
TRANSLATE, has Cartesian norm ≤ 1.001, and, when a ROTATE, has signed
rotation ≤ 60.01; actions of every other type are always accepted. -/
theorem C1_valid_action_characterization (aid : ℤ) (a : Action) :
    valid_action aid a = true ↔
      ((a.action_type = ActionType.TRANSLATE →
          a.displacement.cartesian_norm_sq ≤ sq_norm_limit) ∧
       (a.action_type = ActionType.ROTATE → a.rotation ≤ rot_limit)) := by
  unfold valid_action
  rcases a with ⟨id, ty, anim, disp, rot, br, bc, dur, exp⟩
  cases ty <;> simp

/-! ## Association-list lemmas -/

theorem alist_get_set_self {α : Type} (m : List (ℤ × α)) (k : ℤ) (v : α) :
    alist_get (alist_set m k v) k = some v := by
  induction m with
  | nil => simp [alist_set, alist_get]
  | cons hd tl ih =>
    rcases hd with ⟨k', v'⟩
    by_cases h : k' = k
    · simp [alist_set, alist_get, h]
    · simp [alist_set, alist_get, h, ih]

theorem alist_get_set_other {α : Type} (m : List (ℤ × α)) (k k' : ℤ) (v : α)
    (h : ¬ k' = k) : alist_get (alist_set m k' v) k = alist_get m k := by
  induction m with
  | nil => simp [alist_set, alist_get, h]
  | cons hd tl ih =>
    rcases hd with ⟨k'', v''⟩
    by_cases h2 : k'' = k'
    · subst h2
      simp [alist_set, alist_get, h]
    · simp only [alist_set, if_neg h2, alist_get]
      by_cases h3 : k'' = k
      · simp [h3]
      · simp [h3, ih]

theorem alist_get_modify_self {α : Type} (m : List (ℤ × α)) (k : ℤ) (f : α → α) :
    alist_get (alist_modify m k f) k = (alist_get m k).map f := by
  induction m with
  | nil => simp [alist_modify, alist_get]
  | cons hd tl ih =>
    rcases hd with ⟨k', v⟩
    by_cases h : k' = k
    · simp [alist_modify, alist_get, h]
    · simp [alist_modify, alist_get, h, ih]

theorem alist_get_modify_other {α : Type} (m : List (ℤ × α)) (k k' : ℤ)
    (f : α → α) (h : ¬ k' = k) :
    alist_get (alist_modify m k' f) k = alist_get m k := by
  induction m with
  | nil => simp [alist_modify, alist_get]
  | cons hd tl ih =>
    rcases hd with ⟨k'', v⟩
    by_cases h2 : k'' = k'
    · subst h2
      simp [alist_modify, alist_get, h]
    · simp only [alist_modify, if_neg h2, alist_get]
      by_cases h3 : k'' = k
      · simp [h3]
      · simp [h3, ih]

theorem alist_get_set_all_stable (m : List (ℤ × Bool)) (ids : List ℤ) (v : Bool)
    (k : ℤ) (h : alist_get m k = some v) :
    alist_get (set_all m ids v) k = some v := by
  induction ids generalizing m with
  | nil => simpa [set_all] using h
  | cons i rest ih =>
    simp only [set_all, List.foldl_cons]
    apply ih
    by_cases hik : i = k
    · subst hik; exact alist_get_set_self m i v
    · rw [alist_get_set_other m k i v hik]; exact h

theorem alist_get_set_all_of_mem (m : List (ℤ × Bool)) (ids : List ℤ) (v : Bool)
    (k : ℤ) (hk : k ∈ ids) : alist_get (set_all m ids v) k = some v := by
  induction ids generalizing m with
  | nil => cases hk
  | cons i rest ih =>
    simp only [set_all, List.foldl_cons]
    rcases List.mem_cons.mp hk with h | h
    · subst h
      exact alist_get_set_all_stable _ rest v k (alist_get_set_self m k v)
    · exact ih (alist_set m i v) h

/-! ## C2: rule violations drop the action and desync the actor -/

/-- The oversized TRANSLATE of the C2 witness fails `valid_action`. -/
theorem big_translate_invalid : valid_action 5 big_translate = false := by
  have h : big_translate.action_type = ActionType.TRANSLATE ∧
      big_translate.displacement.cartesian_norm_sq > sq_norm_limit :=
    ⟨rfl, by norm_num [big_translate, HecsCoord.cartesian_norm_sq, sq_norm_limit]⟩
  unfold valid_action
  rw [if_pos h]

/-- C2: a pending head action that is out of turn, out of moves, or fails
`valid_action` (in particular any TRANSLATE with Cartesian norm > 1.001) is
dropped by the tick loop's actor pass: the actor keeps its location and
heading and loses only the head of its queue, no outbox changes, and the
actor's synced bit is cleared. -/
theorem C2_rule_violation_drop (s : State) (now : ℤ) (csi : Bool) (aid : ℤ)
    (actor : Actor) (act : Action) (rest : List Action)
    (hfind : alist_get s.actors aid = some actor)
    (hq : actor.actions = act :: rest)
    (hviol : ¬ s.turn_state.turn = actor.role ∨
             s.turn_state.moves_remaining = 0 ∨
             valid_action aid act = false ∨
             (act.action_type = ActionType.TRANSLATE ∧
               act.displacement.cartesian_norm_sq > sq_norm_limit)) :
    alist_get (s.process_actor_action now csi aid).actors aid =
      some { actor with actions := rest } ∧
    (s.process_actor_action now csi aid).action_history = s.action_history ∧
    alist_get (s.process_actor_action now csi aid).synced aid = some false := by
  have hdrop_eq : Actor.drop actor = { actor with actions := rest } := by
    unfold Actor.drop
    rw [hq]
  have hbranch : s.process_actor_action now csi aid =
      (s.update_actor aid Actor.drop).desync aid := by
    unfold State.process_actor_action
    simp only [hfind, hq]
    rcases hviol with h | h | h | h
    · simp only [if_pos h]
    · by_cases h1 : ¬ s.turn_state.turn = actor.role
      · simp only [if_pos h1]
      · simp only [if_neg h1, if_pos h]
    · by_cases h1 : ¬ s.turn_state.turn = actor.role
      · simp only [if_pos h1]
      · simp only [if_neg h1]
        by_cases h2 : s.turn_state.moves_remaining = 0
        · simp only [if_pos h2]
        · simp only [if_neg h2, h, Bool.false_eq_true, if_false]
    · have hv : valid_action aid act = false := by
        unfold valid_action
        rw [if_pos h]
      by_cases h1 : ¬ s.turn_state.turn = actor.role
      · simp only [if_pos h1]
      · simp only [if_neg h1]
        by_cases h2 : s.turn_state.moves_remaining = 0
        · simp only [if_pos h2]
        · simp only [if_neg h2, hv, Bool.false_eq_true, if_false]
  rw [hbranch]
  refine ⟨?_, rfl, ?_⟩
  · show alist_get (alist_modify s.actors aid Actor.drop) aid = _
    rw [alist_get_modify_self, hfind]
    simp [hdrop_eq]
  · exact alist_get_set_self _ _ _

/-- C2 witness: in the concrete room `c2_state` the follower's oversized
TRANSLATE is dropped and the follower desynced. -/
theorem C2_rule_violation_drop_witness :
    alist_get ((c2_state.process_actor_action 0 false 5)).actors 5 =
      some { c2_actor with actions := [] } ∧
    (c2_state.process_actor_action 0 false 5).action_history =
      c2_state.action_history ∧
    alist_get (c2_state.process_actor_action 0 false 5).synced 5 = some false :=
  C2_rule_violation_drop c2_state 0 false 5 c2_actor big_translate [] rfl rfl
    (Or.inr (Or.inr (Or.inl big_translate_invalid)))

/-! ## C7: objective handling leaves turn, actors and map untouched -/

/-- C7: handling a LEADER's ObjectiveMessage stamps the fresh uuid, appends
it to the objectives list and marks every actor's objectives stale, and
handling a FOLLOWER's ObjectiveComplete marks the first matching objective
completed; neither changes the turn state, any actor (hence any location or
heading), or the map provider (hence its cards and tiles). -/
theorem C7_objective_handlers_frame (s : State) (id1 id2 : ℤ) (o : Objective)
    (u uc : String) (a1 a2 : Actor) (s1 s2 : State)
    (h1 : alist_get s.actors id1 = some a1) (hrole1 : a1.role = Role.LEADER)
    (hh1 : s.handle_objective id1 o u = some s1)
    (h2 : alist_get s.actors id2 = some a2) (hrole2 : a2.role = Role.FOLLOWER)
    (hh2 : s.handle_objective_complete id2 uc = some s2) :
    (s1.turn_state = s.turn_state ∧ s1.actors = s.actors ∧
      s1.map_provider = s.map_provider ∧
      s1.objectives = s.objectives ++ [{ o with uuid := u }] ∧
      ∀ k ∈ s.actor_keys, alist_get s1.objectives_stale k = some true) ∧
    (s2.turn_state = s.turn_state ∧ s2.actors = s.actors ∧
      s2.map_provider = s.map_provider ∧
      s2.objectives = mark_first_complete s.objectives uc) := by
  unfold State.handle_objective at hh1
  simp only [h1, hrole1, eq_self_iff_true, not_true_eq_false, if_false,
    Option.some.injEq] at hh1
  unfold State.handle_objective_complete at hh2
  simp only [h2, hrole2, eq_self_iff_true, not_true_eq_false, if_false,
    Option.some.injEq] at hh2
  subst hh1
  subst hh2
  refine ⟨⟨rfl, rfl, rfl, rfl, ?_⟩, rfl, rfl, rfl, rfl⟩
  intro k hk
  exact alist_get_set_all_of_mem _ _ _ _ hk

/-- C7 witness: the concrete two-player room `c7_state`. -/
theorem C7_objective_handlers_frame_witness :
    (c7_s1.turn_state = c7_state.turn_state ∧ c7_s1.actors = c7_state.actors ∧
      c7_s1.map_provider = c7_state.map_provider ∧
      c7_s1.objectives = c7_state.objectives ++ [{ c7_objective with uuid := "u1" }] ∧
      ∀ k ∈ c7_state.actor_keys, alist_get c7_s1.objectives_stale k = some true) ∧
    (c7_s2.turn_state = c7_state.turn_state ∧ c7_s2.actors = c7_state.actors ∧
      c7_s2.map_provider = c7_state.map_provider ∧
      c7_s2.objectives = mark_first_complete c7_state.objectives "u0") :=
  C7_objective_handlers_frame c7_state 1 2 c7_objective "u1" "u0"
    ⟨1, AssetId.PLAYER, Role.LEADER, ⟨0, 0, 0⟩, 0, []⟩
    ⟨2, AssetId.FOLLOWER_BOT, Role.FOLLOWER, ⟨0, 0, 1⟩, 0, []⟩
    c7_s1 c7_s2 rfl rfl rfl rfl rfl rfl

/-! ## C8: the client re-sends queued Pongs on every step -/

/-- C8 (code bug): after one PING is handled, the queued Pong is transmitted
by the next `step()` send phase — and again by the one after it, because
`Game.step` iterates `queued_messages` without ever clearing it.  The claim
(one Pong transmitted exactly once per PING) is the spec's intent and fails
on this code. -/
theorem C8_duplicate_pong :
    ((((ClientGame.mk []).handle_message_queue_effect
        ServerMessageType.PING).step_send_phase none).1 = [ClientMessage.Pong]) ∧
    (((((ClientGame.mk []).handle_message_queue_effect
        ServerMessageType.PING).step_send_phase none).2.step_send_phase none).1 =
      [ClientMessage.Pong]) := by
  constructor <;> rfl

/-! ## C9: the event-origin enum duplicates a discriminant -/

/-- C9 (code bug): `EventOrigin` declares `LEADER = 1` and `FOLLOWER = 1`,
so the two distinct enumerators share the integer value 1, contradicting the
claim that all origins have distinct discriminants. -/
theorem C9_event_origin_duplicate :
    EventOrigin.LEADER ≠ EventOrigin.FOLLOWER ∧
    EventOrigin.val EventOrigin.LEADER = EventOrigin.val EventOrigin.FOLLOWER := by
  exact ⟨by decide, rfl⟩

/-! ## C10: handle_action checks the embedded actor id -/

/-- C10: an action whose embedded id differs from the submitting actor is
discarded — every actor queue is untouched, no outbox changes, and the
submitter's synced bit is cleared; an action is enqueued (on the submitter's
queue only) exactly when the ids agree, and then the synced bits are
untouched. -/
theorem C10_handle_action_id_guard (s : State) (aid : ℤ) (act : Action)
    (s' : State) (h : s.handle_action aid act = some s') :
    (¬ act.id = aid →
        s'.actors = s.actors ∧
        s'.action_history = s.action_history ∧
        alist_get s'.synced aid = some false) ∧
    (act.id = aid →
        alist_get s'.actors aid =
          (alist_get s.actors aid).map (fun a => a.add_action act) ∧
        (∀ k, ¬ k = aid → alist_get s'.actors k = alist_get s.actors k) ∧
        s'.synced = s.synced) := by
  unfold State.handle_action at h
  by_cases hid : act.id = aid
  · simp only [hid, not_true_eq_false, if_false] at h
    cases hfind : alist_get s.actors aid with
    | none => rw [hfind] at h; cases h
    | some a0 =>
      rw [hfind] at h
      simp only [Option.some.injEq] at h
      subst h
      constructor
      · intro hc; exact absurd hid hc
      · intro _
        refine ⟨?_, ?_, rfl⟩
        · show alist_get (alist_modify s.actors aid _) aid = _
          rw [alist_get_modify_self, hfind]
        · intro k hk
          exact alist_get_modify_other _ _ _ _ (fun he => hk he.symm)
  · rw [if_pos hid] at h
    simp only [Option.some.injEq] at h
    subst h
    constructor
    · intro _
      exact ⟨rfl, rfl, alist_get_set_self _ _ _⟩
    · intro hc; exact absurd hc hid

/-- C10 witness: actor 1 submits an action carrying id 2 in `c7_state`. -/
theorem C10_handle_action_id_guard_witness :
    (¬ c10_act.id = 1 →
        (c7_state.desync 1).actors = c7_state.actors ∧
        (c7_state.desync 1).action_history = c7_state.action_history ∧
        alist_get (c7_state.desync 1).synced 1 = some false) ∧
    (c10_act.id = 1 →
        alist_get (c7_state.desync 1).actors 1 =
          (alist_get c7_state.actors 1).map (fun a => a.add_action c10_act) ∧
        (∀ k, ¬ k = 1 →
          alist_get (c7_state.desync 1).actors k = alist_get c7_state.actors k) ∧
        (c7_state.desync 1).synced = c7_state.synced) :=
  C10_handle_action_id_guard c7_state 1 c10_act (c7_state.desync 1) rfl

/-! ## Drain evaluation lemmas -/

theorem drain_map_update_fresh (s : State) (pid : ℤ)
    (h : alist_get s.map_stale pid = some false) :
    s.drain_map_update pid = (none, s) := by
  simp [State.drain_map_update, h]

theorem drain_actions_empty (s : State) (pid : ℤ)
    (h : alist_get s.action_history pid = some []) :
    s.drain_actions pid =
      ([], { s with action_history := alist_set s.action_history pid [] }) := by
  simp [State.drain_actions, h]

theorem drain_objectives_fresh (s : State) (pid : ℤ)
    (h : alist_get s.objectives_stale pid = some false) :
    s.drain_objectives pid = ([], s) := by
  simp [State.drain_objectives, h]

theorem drain_turn_state_empty (s : State) (pid : ℤ)
    (h : alist_get s.turn_history pid = some []) :
    s.drain_turn_state pid = (none, s) := by
  simp [State.drain_turn_state, h]

theorem getD_true_eq_false {o : Option Bool} (h : o.getD true = false) :
    o = some false := by
  cases o with
  | none => simp at h
  | some b => rw [Option.getD_some] at h; rw [h]

theorem drain_map_update_stale (s : State) (pid : ℤ)
    (h : (alist_get s.map_stale pid).getD true = true) :
    ∃ m', s.drain_map_update pid =
      (some s.map_update, { s with map_stale := m' }) := by
  cases hm : alist_get s.map_stale pid with
  | none =>
    refine ⟨alist_set (alist_set s.map_stale pid true) pid false, ?_⟩
    simp [State.drain_map_update, hm, alist_get_set_self]
  | some b =>
    rw [hm, Option.getD_some] at h
    subst h
    refine ⟨alist_set s.map_stale pid false, ?_⟩
    simp [State.drain_map_update, hm]

theorem drain_actions_some (s : State) (pid : ℤ) (acts : List Action)
    (h : alist_get s.action_history pid = some acts) :
    s.drain_actions pid =
      (acts, { s with action_history := alist_set s.action_history pid [] }) := by
  simp [State.drain_actions, h]

theorem drain_actions_missing (s : State) (pid : ℤ)
    (h : alist_get s.action_history pid = none) :
    s.drain_actions pid = ([], s) := by
  simp [State.drain_actions, h]

theorem drain_objectives_stale (s : State) (pid : ℤ)
    (h : (alist_get s.objectives_stale pid).getD true = true) :
    ∃ m', s.drain_objectives pid =
      (s.objectives, { s with objectives_stale := m' }) := by
  cases hm : alist_get s.objectives_stale pid with
  | none =>
    refine ⟨alist_set (alist_set s.objectives_stale pid true) pid false, ?_⟩
    simp [State.drain_objectives, hm, alist_get_set_self]
  | some b =>
    rw [hm, Option.getD_some] at h
    subst h
    refine ⟨alist_set s.objectives_stale pid false, ?_⟩
    simp [State.drain_objectives, hm]

theorem drain_turn_state_pop (s : State) (pid : ℤ) (t : TurnState)
    (rest : List TurnState) (h : alist_get s.turn_history pid = some (t :: rest)) :
    s.drain_turn_state pid =
      (some t, { s with turn_history := alist_set s.turn_history pid rest }) := by
  simp [State.drain_turn_state, h]

theorem drain_turn_state_missing (s : State) (pid : ℤ)
    (h : alist_get s.turn_history pid = none) :
    s.drain_turn_state pid =
      (none, { s with turn_history := alist_set s.turn_history pid [] }) := by
  simp [State.drain_turn_state, h]

theorem drain_actions_getD_empty (s : State) (pid : ℤ)
    (h : (alist_get s.action_history pid).getD [] = []) :
    ∃ hist', s.drain_actions pid = ([], { s with action_history := hist' }) := by
  cases hm : alist_get s.action_history pid with
  | none => exact ⟨s.action_history, drain_actions_missing s pid hm⟩
  | some l =>
    rw [hm, Option.getD_some] at h
    subst h
    exact ⟨alist_set s.action_history pid [], drain_actions_some s pid [] hm⟩

theorem drain_objectives_no_message (s : State) (pid : ℤ)
    (h : (alist_get s.objectives_stale pid).getD true = false ∨ s.objectives = []) :
    ∃ m', s.drain_objectives pid = ([], { s with objectives_stale := m' }) := by
  rcases h with h | h
  · exact ⟨s.objectives_stale, drain_objectives_fresh s pid (getD_true_eq_false h)⟩
  · cases hb : (alist_get s.objectives_stale pid).getD true with
    | false => exact ⟨s.objectives_stale, drain_objectives_fresh s pid (getD_true_eq_false hb)⟩
    | true =>
      obtain ⟨m', hob⟩ := drain_objectives_stale s pid hb
      exact ⟨m', by rw [hob, h]⟩

theorem drain_turn_state_no_message (s : State) (pid : ℤ)
    (h : (alist_get s.turn_history pid).getD [] = []) :
    ∃ th', s.drain_turn_state pid = (none, { s with turn_history := th' }) := by
  cases hm : alist_get s.turn_history pid with
  | none => exact ⟨alist_set s.turn_history pid [], drain_turn_state_missing s pid hm⟩
  | some l =>
    rw [hm, Option.getD_some] at h
    subst h
    exact ⟨s.turn_history, by simp [State.drain_turn_state, hm]⟩

/-! ## C3: drain priority -/

/-- C3 counterexample: the claim says a client with stale objectives receives
the Objectives list.  In `c3_cx_state` player 1 has fresh map, is synced, has
an empty outbox and stale objectives — but the objectives list is empty, so
the code skips the Objectives message and returns the queued TurnState
instead. -/
theorem C3_counterexample :
    (alist_get c3_cx_state.map_stale 1).getD true = false ∧
    alist_get c3_cx_state.synced 1 = some true ∧
    (alist_get c3_cx_state.action_history 1).getD [] = [] ∧
    (alist_get c3_cx_state.objectives_stale 1).getD true = true ∧
    drained_message c3_cx_state 1 =
      some (some (MessageFromServer.GameStateFromServer ts0)) :=
  ⟨rfl, rfl, rfl, rfl, rfl⟩

/-- C3 (amended): per call, `drain_message` returns at most one message, in
the fixed priority: a MapUpdate if the client's map is stale (an unknown
client counts as stale); else a StateSync if the client is not synced, after
which the client is marked synced; else the batched pending Actions if the
outbox is non-empty; else the Objectives list if the client's objectives are
stale AND the list is non-empty (a stale-but-empty list produces no message,
though it is marked fresh); else one queued TurnState; else nothing. -/
theorem C3_drain_priority (s : State) (pid : ℤ) (sy : Bool)
    (hsy : alist_get s.synced pid = some sy) :
    ((alist_get s.map_stale pid).getD true = true →
      ∃ s', s.drain_message pid =
        some (some (MessageFromServer.MapUpdateFromServer s.map_update), s')) ∧
    ((alist_get s.map_stale pid).getD true = false → sy = false →
      ∃ s', s.drain_message pid =
        some (some (MessageFromServer.StateSyncFromServer (s.state pid)), s') ∧
        alist_get s'.synced pid = some true) ∧
    (∀ acts : List Action, (alist_get s.map_stale pid).getD true = false →
      sy = true → alist_get s.action_history pid = some acts → 0 < acts.length →
      ∃ s', s.drain_message pid =
        some (some (MessageFromServer.ActionsFromServer acts), s')) ∧
    ((alist_get s.map_stale pid).getD true = false → sy = true →
      (alist_get s.action_history pid).getD [] = [] →
      (alist_get s.objectives_stale pid).getD true = true →
      0 < s.objectives.length →
      ∃ s', s.drain_message pid =
        some (some (MessageFromServer.ObjectivesFromServer s.objectives), s')) ∧
    (∀ (t : TurnState) (rest : List TurnState),
      (alist_get s.map_stale pid).getD true = false → sy = true →
      (alist_get s.action_history pid).getD [] = [] →
      ((alist_get s.objectives_stale pid).getD true = false ∨ s.objectives = []) →
      alist_get s.turn_history pid = some (t :: rest) →
      ∃ s', s.drain_message pid =
        some (some (MessageFromServer.GameStateFromServer t), s')) ∧
    ((alist_get s.map_stale pid).getD true = false → sy = true →
      (alist_get s.action_history pid).getD [] = [] →
      ((alist_get s.objectives_stale pid).getD true = false ∨ s.objectives = []) →
      (alist_get s.turn_history pid).getD [] = [] →
      ∃ s', s.drain_message pid = some (none, s')) := by
  refine ⟨?_, ?_, ?_, ?_, ?_, ?_⟩
  · intro hst
    obtain ⟨m', hmu⟩ := drain_map_update_stale s pid hst
    refine ⟨{ s with map_stale := m' }, ?_⟩
    simp [State.drain_message, hmu]
  · intro hmf hsyf
    subst hsyf
    have h1 := drain_map_update_fresh s pid (getD_true_eq_false hmf)
    refine ⟨{ s with synced := alist_set s.synced pid true }, ?_,
      alist_get_set_self _ _ _⟩
    simp [State.drain_message, h1, State.is_synced, hsy,
      State.sync_message_for_transmission]
  · intro acts hmf hsyt hacts hlen
    subst hsyt
    have h1 := drain_map_update_fresh s pid (getD_true_eq_false hmf)
    have h3 := drain_actions_some s pid acts hacts
    refine ⟨{ s with action_history := alist_set s.action_history pid [] }, ?_⟩
    simp [State.drain_message, h1, State.is_synced, hsy, h3, hlen]
  · intro hmf hsyt hout hobst hne
    subst hsyt
    have h1 := drain_map_update_fresh s pid (getD_true_eq_false hmf)
    obtain ⟨hist', h3⟩ := drain_actions_getD_empty s pid hout
    obtain ⟨m2, hob⟩ :=
      drain_objectives_stale { s with action_history := hist' } pid hobst
    refine ⟨{ s with action_history := hist', objectives_stale := m2 }, ?_⟩
    simp [State.drain_message, h1, State.is_synced, hsy, h3, hob, hne]
  · intro t rest hmf hsyt hout hobjf hq
    subst hsyt
    have h1 := drain_map_update_fresh s pid (getD_true_eq_false hmf)
    obtain ⟨hist', h3⟩ := drain_actions_getD_empty s pid hout
    obtain ⟨m2, hob⟩ :=
      drain_objectives_no_message { s with action_history := hist' } pid hobjf
    have h5 := drain_turn_state_pop
      { s with action_history := hist', objectives_stale := m2 } pid t rest hq
    refine ⟨{ s with
                action_history := hist'
                objectives_stale := m2
                turn_history := alist_set s.turn_history pid rest }, ?_⟩
    simp [State.drain_message, h1, State.is_synced, hsy, h3, hob, h5]
  · intro hmf hsyt hout hobjf hqe
    subst hsyt
    have h1 := drain_map_update_fresh s pid (getD_true_eq_false hmf)
    obtain ⟨hist', h3⟩ := drain_actions_getD_empty s pid hout
    obtain ⟨m2, hob⟩ :=
      drain_objectives_no_message { s with action_history := hist' } pid hobjf
    obtain ⟨th', h5⟩ := drain_turn_state_no_message
      { s with action_history := hist', objectives_stale := m2 } pid hqe
    refine ⟨{ s with
                action_history := hist'
                objectives_stale := m2
                turn_history := th' }, ?_⟩
    simp [State.drain_message, h1, State.is_synced, hsy, h3, hob, h5]

/-- C3 witness: the concrete room `c3_w_state` (player 1 synced, map stale). -/
theorem C3_drain_priority_witness :
    ((alist_get c3_w_state.map_stale 1).getD true = true →
      ∃ s', c3_w_state.drain_message 1 =
        some (some (MessageFromServer.MapUpdateFromServer c3_w_state.map_update), s')) ∧
    ((alist_get c3_w_state.map_stale 1).getD true = false → true = false →
      ∃ s', c3_w_state.drain_message 1 =
        some (some (MessageFromServer.StateSyncFromServer (c3_w_state.state 1)), s') ∧
        alist_get s'.synced 1 = some true) ∧
    (∀ acts : List Action, (alist_get c3_w_state.map_stale 1).getD true = false →
      true = true → alist_get c3_w_state.action_history 1 = some acts →
      0 < acts.length →
      ∃ s', c3_w_state.drain_message 1 =
        some (some (MessageFromServer.ActionsFromServer acts), s')) ∧
    ((alist_get c3_w_state.map_stale 1).getD true = false → true = true →
      (alist_get c3_w_state.action_history 1).getD [] = [] →
      (alist_get c3_w_state.objectives_stale 1).getD true = true →
      0 < c3_w_state.objectives.length →
      ∃ s', c3_w_state.drain_message 1 =
        some (some (MessageFromServer.ObjectivesFromServer c3_w_state.objectives), s')) ∧
    (∀ (t : TurnState) (rest : List TurnState),
      (alist_get c3_w_state.map_stale 1).getD true = false → true = true →
      (alist_get c3_w_state.action_history 1).getD [] = [] →
      ((alist_get c3_w_state.objectives_stale 1).getD true = false ∨
        c3_w_state.objectives = []) →
      alist_get c3_w_state.turn_history 1 = some (t :: rest) →
      ∃ s', c3_w_state.drain_message 1 =
        some (some (MessageFromServer.GameStateFromServer t), s')) ∧
    ((alist_get c3_w_state.map_stale 1).getD true = false → true = true →
      (alist_get c3_w_state.action_history 1).getD [] = [] →
      ((alist_get c3_w_state.objectives_stale 1).getD true = false ∨
        c3_w_state.objectives = []) →
      (alist_get c3_w_state.turn_history 1).getD [] = [] →
      ∃ s', c3_w_state.drain_message 1 = some (none, s')) :=
  C3_drain_priority c3_w_state 1 true rfl

/-! ## C6: drains after end_game -/

/-- C6 counterexample: the claim says that once `end_game()` has set `done`,
every drain returns nothing.  In `c6_cx_state` the game has ended (indeed
`done = true` was set by `end_game`), yet the drain still returns the queued
game-over turn state — `drain_message` never consults the done flag. -/
theorem C6_counterexample :
    c6_cx_state.done = true ∧
    drained_message c6_cx_state 1 =
      some (some (MessageFromServer.GameStateFromServer (GameOverMessage 0 2 2))) :=
  ⟨rfl, rfl⟩

/-- C6 (amended): `end_game()` sets `done` and the tick loop exits, but
`drain_message` is unaffected by the done flag: a drain returns nothing
exactly when the client has no pending content (fresh map, synced, empty
outbox, fresh objectives, empty turn queue), whether or not the game is
done. -/
theorem C6_drain_nothing_when_exhausted (s : State) (pid : ℤ)
    (hmap : alist_get s.map_stale pid = some false)
    (hsy : alist_get s.synced pid = some true)
    (hact : alist_get s.action_history pid = some [])
    (hobj : alist_get s.objectives_stale pid = some false)
    (hturn : alist_get s.turn_history pid = some []) :
    ∃ s', s.drain_message pid = some (none, s') ∧ s'.done = s.done := by
  have h1 := drain_map_update_fresh s pid hmap
  have h3 := drain_actions_empty s pid hact
  have h4 : ({ s with action_history := alist_set s.action_history pid [] } :
      State).drain_objectives pid =
      ([], { s with action_history := alist_set s.action_history pid [] }) :=
    drain_objectives_fresh _ pid hobj
  have h5 : ({ s with action_history := alist_set s.action_history pid [] } :
      State).drain_turn_state pid =
      (none, { s with action_history := alist_set s.action_history pid [] }) :=
    drain_turn_state_empty _ pid hturn
  refine ⟨{ s with action_history := alist_set s.action_history pid [] }, ?_, rfl⟩
  simp [State.drain_message, h1, State.is_synced, hsy, h3, h4, h5]

/-- C6 witness: the done room `c6_w_state` with nothing pending for player 1
drains nothing. -/
theorem C6_drain_nothing_when_exhausted_witness :
    ∃ s', c6_w_state.drain_message 1 = some (none, s') ∧
      s'.done = c6_w_state.done :=
  C6_drain_nothing_when_exhausted c6_w_state 1 rfl rfl rfl rfl rfl

/-! ## C4: collecting a valid set -/

theorem filter_map_set_selected (l : List Card) (cid : ℤ) :
    (l.map (fun k => if k.id = cid then { k with selected := false } else k)).filter
        (fun k => decide (¬ k.id = cid)) =
      l.filter (fun k => decide (¬ k.id = cid)) := by
  induction l with
  | nil => rfl
  | cons k rest ih =>
    by_cases h : k.id = cid
    · simpa [List.filter_cons, h] using ih
    · simpa [List.filter_cons, h] using ih

theorem collect_card_cards (st : State) (c : Card) :
    (st.collect_card c).map_provider.cards =
      st.map_provider.cards.filter (fun k => decide (¬ k.id = c.id)) :=
  filter_map_set_selected st.map_provider.cards c.id

theorem foldl_collect_turn_state (sel : List Card) (st : State) :
    (sel.foldl State.collect_card st).turn_state = st.turn_state := by
  induction sel generalizing st with
  | nil => rfl
  | cons c cs ih =>
    simp only [List.foldl_cons]
    exact ih (st.collect_card c)

theorem foldl_collect_actors (sel : List Card) (st : State) :
    (sel.foldl State.collect_card st).actors = st.actors := by
  induction sel generalizing st with
  | nil => rfl
  | cons c cs ih =>
    simp only [List.foldl_cons]
    exact ih (st.collect_card c)

theorem foldl_collect_map_stale (sel : List Card) (st : State) :
    (sel.foldl State.collect_card st).map_stale = st.map_stale := by
  induction sel generalizing st with
  | nil => rfl
  | cons c cs ih =>
    simp only [List.foldl_cons]
    exact ih (st.collect_card c)

theorem foldl_collect_cards (sel : List Card) (st : State) :
    (sel.foldl State.collect_card st).map_provider.cards =
      st.map_provider.cards.filter
        (fun k => sel.all (fun d => decide (¬ k.id = d.id))) := by
  induction sel generalizing st with
  | nil => simp
  | cons c cs ih =>
    simp only [List.foldl_cons]
    rw [ih (st.collect_card c), collect_card_cards, List.filter_filter]
    apply List.filter_congr
    intro k _
    simp [List.all_cons, Bool.and_comm]

/-- C4: when the tick loop detects a selected valid set, the recorded turn
state gains exactly one set and one point, `turns_left` grows by the bonus
determined by the prior `sets_collected` (0 → +5, 1-2 → +4, 3-4 → +3, else
+0), the three selected cards are removed from the provider (de-selected on
the way out), the given 3 fresh cards are appended, and every actor's
map-stale bit is set. -/
theorem C4_valid_set_collection (s : State) (fresh : List Card)
    (hvalid : s.map_provider.selected_valid_set = true)
    (hfresh : fresh.length = 3)
    (hids : ∀ f ∈ fresh, ∀ c ∈ s.map_provider.selected_cards, ¬ f.id = c.id) :
    (s.score_valid_set fresh).turn_state.sets_collected =
      s.turn_state.sets_collected + 1 ∧
    (s.score_valid_set fresh).turn_state.score = s.turn_state.score + 1 ∧
    (s.score_valid_set fresh).turn_state.turns_left = s.turn_state.turns_left +
      (if s.turn_state.sets_collected = 0 then 5
       else if s.turn_state.sets_collected = 1 ∨ s.turn_state.sets_collected = 2 then 4
       else if s.turn_state.sets_collected = 3 ∨ s.turn_state.sets_collected = 4 then 3
       else 0) ∧
    s.map_provider.selected_cards.length = 3 ∧
    (s.score_valid_set fresh).map_provider.cards =
      s.map_provider.cards.filter
        (fun k => s.map_provider.selected_cards.all (fun d => decide (¬ k.id = d.id)))
        ++ fresh ∧
    (∀ c ∈ s.map_provider.selected_cards,
      ∀ k ∈ (s.score_valid_set fresh).map_provider.cards, ¬ k.id = c.id) ∧
    (∀ k ∈ s.actor_keys,
      alist_get (s.score_valid_set fresh).map_stale k = some true) := by
  have hts : (s.score_valid_set fresh).turn_state =
      TurnUpdate s.turn_state.turn s.turn_state.moves_remaining
        (s.turn_state.turns_left +
          (if s.turn_state.sets_collected = 0 then 5
           else if s.turn_state.sets_collected = 1 ∨ s.turn_state.sets_collected = 2 then 4
           else if s.turn_state.sets_collected = 3 ∨ s.turn_state.sets_collected = 4 then 3
           else 0))
        s.turn_state.turn_end s.turn_state.game_start
        (s.turn_state.sets_collected + 1) (s.turn_state.score + 1) := by
    simp only [State.score_valid_set]
    rw [foldl_collect_turn_state]
    rfl
  have hcards : (s.score_valid_set fresh).map_provider.cards =
      s.map_provider.cards.filter
        (fun k => s.map_provider.selected_cards.all (fun d => decide (¬ k.id = d.id)))
        ++ fresh := by
    simp only [State.score_valid_set, MapProvider.add_random_cards]
    rw [foldl_collect_cards]
    rfl
  have hlen : s.map_provider.selected_cards.length = 3 := by
    have h := hvalid
    simp only [MapProvider.selected_valid_set, Bool.and_eq_true, beq_iff_eq] at h
    exact h.1
  refine ⟨by rw [hts]; rfl, by rw [hts]; rfl, by rw [hts]; rfl, hlen, hcards, ?_, ?_⟩
  · intro c hc k hk
    rw [hcards] at hk
    rcases List.mem_append.mp hk with hmem | hmem
    · have hpred := (List.mem_filter.mp hmem).2
      have := List.all_eq_true.mp hpred c hc
      simpa using this
    · exact hids k hmem c hc
  · intro k hk
    simp only [State.score_valid_set, State.actor_keys]
    rw [foldl_collect_actors, foldl_collect_map_stale]
    exact alist_get_set_all_of_mem _ _ _ _ hk

/-- C4 witness: the concrete room `c4_state` holding a selected valid set,
replenished with `c4_fresh`. -/
theorem C4_valid_set_collection_witness :
    (c4_state.score_valid_set c4_fresh).turn_state.sets_collected =
      c4_state.turn_state.sets_collected + 1 ∧
    (c4_state.score_valid_set c4_fresh).turn_state.score =
      c4_state.turn_state.score + 1 ∧
    (c4_state.score_valid_set c4_fresh).turn_state.turns_left =
      c4_state.turn_state.turns_left +
      (if c4_state.turn_state.sets_collected = 0 then 5
       else if c4_state.turn_state.sets_collected = 1 ∨
         c4_state.turn_state.sets_collected = 2 then 4
       else if c4_state.turn_state.sets_collected = 3 ∨
         c4_state.turn_state.sets_collected = 4 then 3
       else 0) ∧
    c4_state.map_provider.selected_cards.length = 3 ∧
    (c4_state.score_valid_set c4_fresh).map_provider.cards =
      c4_state.map_provider.cards.filter
        (fun k => c4_state.map_provider.selected_cards.all
          (fun d => decide (¬ k.id = d.id))) ++ c4_fresh ∧
    (∀ c ∈ c4_state.map_provider.selected_cards,
      ∀ k ∈ (c4_state.score_valid_set c4_fresh).map_provider.cards, ¬ k.id = c.id) ∧
    (∀ k ∈ c4_state.actor_keys,
      alist_get (c4_state.score_valid_set c4_fresh).map_stale k = some true) :=
  C4_valid_set_collection c4_state c4_fresh rfl rfl (by decide)

/-! ## C5: the move budget -/

theorem moves_per_turn_nonneg (role : Role) : 0 ≤ moves_per_turn role := by
  unfold moves_per_turn LEADER_MOVES_PER_TURN FOLLOWER_MOVES_PER_TURN
  split <;> norm_num

theorem check_cards_turn_state (s : State) (aid : ℤ) (act : Action) (col : Color) :
    (s.check_for_stepped_on_cards aid act col).turn_state = s.turn_state := by
  unfold State.check_for_stepped_on_cards
  split
  · rfl
  · split
    · rfl
    · split
      · rfl
      · rfl

theorem end_turn_moves_nonneg (s : State) (now : ℤ) (f : Bool)
    (h : 0 ≤ s.turn_state.moves_remaining) :
    0 ≤ (s.end_turn_if_over now f).turn_state.moves_remaining := by
  simp only [State.end_turn_if_over, State.record_turn_state, TurnUpdate]
  split
  · exact moves_per_turn_nonneg _
  · exact le_max_right _ _

theorem end_turn_moves_decrement (s : State) (now : ℤ)
    (hc : now < s.turn_state.turn_end) (hm : 1 ≤ s.turn_state.moves_remaining) :
    (s.end_turn_if_over now false).turn_state.moves_remaining =
      s.turn_state.moves_remaining - 1 := by
  have hcond : (decide (now ≥ s.turn_state.turn_end) || false) = false := by
    simp [not_le.mpr hc]
  simp only [State.end_turn_if_over, State.record_turn_state, TurnUpdate]
  rw [hcond]
  simp only [Bool.false_eq_true, if_false]
  omega

theorem process_moves_nonneg (s : State) (now : ℤ) (csi : Bool) (aid : ℤ)
    (h : 0 ≤ s.turn_state.moves_remaining) :
    0 ≤ (s.process_actor_action now csi aid).turn_state.moves_remaining := by
  unfold State.process_actor_action
  split
  · exact h
  · split
    · exact h
    · split
      · exact h
      · split
        · exact h
        · split
          · exact end_turn_moves_nonneg _ now false
              (by rw [check_cards_turn_state]; exact h)
          · exact h

theorem mark_cards_turn_state (s : State) (col : Color) :
    (s.mark_cards col).turn_state = s.turn_state := by
  unfold State.mark_cards
  generalize s.map_provider.selected_cards = l
  induction l generalizing s with
  | nil => rfl
  | cons x xs ih =>
    simp only [List.foldl_cons]
    exact ih _

theorem score_valid_set_moves (s : State) (fresh : List Card) :
    (s.score_valid_set fresh).turn_state.moves_remaining =
      s.turn_state.moves_remaining := by
  simp only [State.score_valid_set]
  rw [foldl_collect_turn_state]
  rfl

theorem handle_action_turn_state (s : State) (aid : ℤ) (a : Action) (s' : State)
    (h : s.handle_action aid a = some s') : s'.turn_state = s.turn_state := by
  unfold State.handle_action at h
  split at h
  · simp only [Option.some.injEq] at h
    subst h
    rfl
  · split at h
    · cases h
    · simp only [Option.some.injEq] at h
      subst h
      rfl

theorem handle_objective_turn_state (s : State) (id : ℤ) (o : Objective)
    (u : String) (s' : State) (h : s.handle_objective id o u = some s') :
    s'.turn_state = s.turn_state := by
  unfold State.handle_objective at h
  split at h
  · cases h
  · split at h
    · simp only [Option.some.injEq] at h
      subst h
      rfl
    · simp only [Option.some.injEq] at h
      subst h
      rfl

theorem handle_objective_complete_turn_state (s : State) (id : ℤ) (u : String)
    (s' : State) (h : s.handle_objective_complete id u = some s') :
    s'.turn_state = s.turn_state := by
  unfold State.handle_objective_complete at h
  split at h
  · cases h
  · split at h
    · simp only [Option.some.injEq] at h
      subst h
      rfl
    · simp only [Option.some.injEq] at h
      subst h
      rfl

theorem handle_turn_complete_moves_nonneg (s : State) (now id : ℤ) (s' : State)
    (h : s.handle_turn_complete now id = some s')
    (hn : 0 ≤ s.turn_state.moves_remaining) :
    0 ≤ s'.turn_state.moves_remaining := by
  unfold State.handle_turn_complete at h
  split at h
  · cases h
  · split at h
    · simp only [Option.some.injEq] at h
      subst h
      exact hn
    · simp only [Option.some.injEq] at h
      subst h
      exact end_turn_moves_nonneg _ _ _ hn

theorem drain_map_update_snd_turn (s : State) (pid : ℤ) :
    (s.drain_map_update pid).2.turn_state = s.turn_state := by
  cases hm : alist_get s.map_stale pid with
  | none =>
    obtain ⟨m', h⟩ := drain_map_update_stale s pid (by rw [hm]; rfl)
    rw [h]
  | some b =>
    cases b with
    | false => rw [drain_map_update_fresh s pid hm]
    | true =>
      obtain ⟨m', h⟩ := drain_map_update_stale s pid (by rw [hm]; rfl)
      rw [h]

theorem drain_actions_snd_turn (s : State) (pid : ℤ) :
    (s.drain_actions pid).2.turn_state = s.turn_state := by
  cases hm : alist_get s.action_history pid with
  | none => rw [drain_actions_missing s pid hm]
  | some l => rw [drain_actions_some s pid l hm]

theorem drain_objectives_snd_turn (s : State) (pid : ℤ) :
    (s.drain_objectives pid).2.turn_state = s.turn_state := by
  cases hm : alist_get s.objectives_stale pid with
  | none =>
    obtain ⟨m', h⟩ := drain_objectives_stale s pid (by rw [hm]; rfl)
    rw [h]
  | some b =>
    cases b with
    | false => rw [drain_objectives_fresh s pid hm]
    | true =>
      obtain ⟨m', h⟩ := drain_objectives_stale s pid (by rw [hm]; rfl)
      rw [h]

theorem drain_turn_state_snd_turn (s : State) (pid : ℤ) :
    (s.drain_turn_state pid).2.turn_state = s.turn_state := by
  cases hm : alist_get s.turn_history pid with
  | none => rw [drain_turn_state_missing s pid hm]
  | some l =>
    cases l with
    | nil => rw [drain_turn_state_empty s pid hm]
    | cons t rest => rw [drain_turn_state_pop s pid t rest hm]

theorem drain_message_turn_state (s : State) (pid : ℤ)
    (m : Option MessageFromServer) (s' : State)
    (h : s.drain_message pid = some (m, s')) : s'.turn_state = s.turn_state := by
  unfold State.drain_message at h
  split at h
  next m0 s1 heq =>
    simp only [Option.some.injEq, Prod.mk.injEq] at h
    obtain ⟨-, rfl⟩ := h
    have hx := drain_map_update_snd_turn s pid
    rw [heq] at hx
    exact hx
  next s1 heq =>
    have hs1 : s1.turn_state = s.turn_state := by
      have hx := drain_map_update_snd_turn s pid
      rw [heq] at hx
      exact hx
    split at h
    · simp at h
    next sy hsy =>
      split at h
      · split at h
        next ss s2 heq2 =>
          simp only [Option.some.injEq, Prod.mk.injEq] at h
          obtain ⟨-, rfl⟩ := h
          have hx : (s1.sync_message_for_transmission pid).2.turn_state =
              s1.turn_state := rfl
          rw [heq2] at hx
          rw [hx, hs1]
      · split at h
        next acts s2 heq2 =>
          have hs2 : s2.turn_state = s1.turn_state := by
            have hx := drain_actions_snd_turn s1 pid
            rw [heq2] at hx
            exact hx
          split at h
          · simp only [Option.some.injEq, Prod.mk.injEq] at h
            obtain ⟨-, rfl⟩ := h
            rw [hs2, hs1]
          · split at h
            next objs s3 heq3 =>
              have hs3 : s3.turn_state = s2.turn_state := by
                have hx := drain_objectives_snd_turn s2 pid
                rw [heq3] at hx
                exact hx
              split at h
              · simp only [Option.some.injEq, Prod.mk.injEq] at h
                obtain ⟨-, rfl⟩ := h
                rw [hs3, hs2, hs1]
              · split at h
                next t s4 heq4 =>
                  have hs4 : s4.turn_state = s3.turn_state := by
                    have hx := drain_turn_state_snd_turn s3 pid
                    rw [heq4] at hx
                    exact hx
                  simp only [Option.some.injEq, Prod.mk.injEq] at h
                  obtain ⟨-, rfl⟩ := h
                  rw [hs4, hs3, hs2, hs1]
                next s4 heq4 =>
                  have hs4 : s4.turn_state = s3.turn_state := by
                    have hx := drain_turn_state_snd_turn s3 pid
                    rw [heq4] at hx
                    exact hx
                  simp only [Option.some.injEq, Prod.mk.injEq] at h
                  obtain ⟨-, rfl⟩ := h
                  rw [hs4, hs3, hs2, hs1]

/-- The invariant backing C5: every state reachable by the tick loop and the
engine's entry points has a nonnegative move budget. -/
theorem reachable_moves_nonneg (s : State) (hr : Reachable s) :
    0 ≤ s.turn_state.moves_remaining := by
  induction hr with
  | init mp spawns now =>
    show (0 : ℤ) ≤ 5
    norm_num
  | game_over hr hl ih => exact le_refl 0
  | heartbeat hr ih => exact ih
  | turn_expiry now hr hge ih => exact end_turn_moves_nonneg _ now false ih
  | process now csi aid hr ih => exact process_moves_nonneg _ now csi aid ih
  | mark color hr ih =>
    rw [mark_cards_turn_state]
    exact ih
  | collect fresh hr hsel ih =>
    rw [score_valid_set_moves]
    exact ih
  | act aid a hr heq ih =>
    rw [handle_action_turn_state _ _ _ _ heq]
    exact ih
  | objective id o u hr heq ih =>
    rw [handle_objective_turn_state _ _ _ _ _ heq]
    exact ih
  | objective_complete id u hr heq ih =>
    rw [handle_objective_complete_turn_state _ _ _ _ heq]
    exact ih
  | turn_complete now id hr heq ih =>
    exact handle_turn_complete_moves_nonneg _ _ _ _ heq ih
  | create role hr ih => exact ih
  | free aid hr ih => exact ih
  | sync_req aid hr ih => exact ih
  | drain pid hr heq ih =>
    rw [drain_message_turn_state _ _ _ _ heq]
    exact ih

theorem process_commit_moves (s : State) (now : ℤ) (csi : Bool) (aid : ℤ)
    (actor : Actor) (act : Action) (rest : List Action)
    (hfind : alist_get s.actors aid = some actor)
    (hq : actor.actions = act :: rest)
    (hturn : s.turn_state.turn = actor.role)
    (hmoves : ¬ s.turn_state.moves_remaining = 0)
    (hvalid : valid_action aid act = true)
    (hclock : now < s.turn_state.turn_end)
    (hnn : 0 ≤ s.turn_state.moves_remaining) :
    (s.process_actor_action now csi aid).turn_state.moves_remaining =
      s.turn_state.moves_remaining - 1 := by
  unfold State.process_actor_action
  simp only [hfind, hq]
  rw [if_neg (not_not_intro hturn), if_neg hmoves, if_pos hvalid]
  show ((((s.update_actor aid Actor.step).record_action
      act).check_for_stepped_on_cards aid act
      (if !csi then blue else red)).end_turn_if_over now false).turn_state.moves_remaining
    = s.turn_state.moves_remaining - 1
  have hc3 : now < (((s.update_actor aid Actor.step).record_action
      act).check_for_stepped_on_cards aid act
      (if !csi then blue else red)).turn_state.turn_end := by
    rw [check_cards_turn_state]
    exact hclock
  have hm3 : 1 ≤ (((s.update_actor aid Actor.step).record_action
      act).check_for_stepped_on_cards aid act
      (if !csi then blue else red)).turn_state.moves_remaining := by
    rw [check_cards_turn_state]
    show 1 ≤ s.turn_state.moves_remaining
    omega
  rw [end_turn_moves_decrement _ now hc3 hm3, check_cards_turn_state]
  rfl

/-- C5: in every state reachable by the tick loop, `moves_remaining ≥ 0`, and
a committed move — a head action that passes the turn, moves, and validity
checks and is stepped while the turn clock has not expired — decreases
`moves_remaining` by exactly 1. -/
theorem C5_moves_budget (s : State) (hr : Reachable s) (now : ℤ) (csi : Bool)
    (aid : ℤ) (actor : Actor) (act : Action) (rest : List Action)
    (hfind : alist_get s.actors aid = some actor)
    (hq : actor.actions = act :: rest)
    (hturn : s.turn_state.turn = actor.role)
    (hmoves : ¬ s.turn_state.moves_remaining = 0)
    (hvalid : valid_action aid act = true)
    (hclock : now < s.turn_state.turn_end) :
    0 ≤ s.turn_state.moves_remaining ∧
    (s.process_actor_action now csi aid).turn_state.moves_remaining =
      s.turn_state.moves_remaining - 1 :=
  ⟨reachable_moves_nonneg s hr,
   process_commit_moves s now csi aid actor act rest hfind hq hturn hmoves
     hvalid hclock (reachable_moves_nonneg s hr)⟩

/-- The unit TRANSLATE of the C5 witness passes `valid_action`. -/
theorem walk_act_valid : valid_action 0 walk_act = true := by
  have h1 : ¬ (walk_act.action_type = ActionType.TRANSLATE ∧
      walk_act.displacement.cartesian_norm_sq > sq_norm_limit) := by
    rintro ⟨-, hgt⟩
    norm_num [walk_act, HecsCoord.cartesian_norm_sq, sq_norm_limit] at hgt
  have h2 : ¬ (walk_act.action_type = ActionType.ROTATE ∧
      walk_act.rotation > rot_limit) := by
    rintro ⟨hty, -⟩
    exact absurd hty (by simp [walk_act])
  unfold valid_action
  rw [if_neg h1, if_neg h2]

/-- C5 witness: the reachable room `c5_s2` (fresh room, leader created, unit
TRANSLATE pending) commits the move and pays exactly one move. -/
theorem C5_moves_budget_witness :
    0 ≤ c5_s2.turn_state.moves_remaining ∧
    (c5_s2.process_actor_action 0 false 0).turn_state.moves_remaining =
      c5_s2.turn_state.moves_remaining - 1 :=
  C5_moves_budget c5_s2
    (Reachable.act 0 walk_act
      (Reachable.create Role.LEADER (Reachable.init mp0 [] 0)) rfl)
    0 false 0 c5_actor walk_act [] rfl rfl rfl (by decide) walk_act_valid
    (by decide)

end CB2
